import Mathlib

/-!
# Verification of the wiktextract page parser (`wiktextract/newpage.py`)

This development gives a shallow embedding of the data model and the
operations of `newpage.py`: the three-level staging/merge machinery of
`parse_language` (`merge_base`, `push_sense`, `push_pos`, `push_etym`,
`process_children`), the post-processing passes of `parse_page`
(conjugation sharing and topic propagation), the translation-scope
tracking of `parse_any`, the linkage deduplication of `parse_linkage`
(`add_linkage`), the color-panel value normalization of `parse_sense`,
and the template dispatch of `parse_sense` relevant to the `tags` field.

Python dictionaries are embedded as insertion-ordered association lists
(`Data`), Python values as the inductive `Val`.  Functions from modules
of the repository that are not part of `newpage.py` (`datautils`,
`clean`, `form_descriptions`, the static lookup tables) are modelled
from the specification and marked as such in their doc comments.
-/

namespace Wiktextract

/-- A JSON-like value as stored in the word-entry dictionaries of
`newpage.py`: strings, booleans (e.g. the `inaccurate` marker), lists,
and nested dictionaries (template argument records, topics, edges). -/
inductive Val where
  | str (s : String)
  | bool (b : Bool)
  | pyNone
  | list (l : List Val)
  | dict (d : List (String × Val))

mutual
/-- Structural equality on `Val`, mirroring Python `==` on the
corresponding strings / booleans / lists / dicts. -/
def Val.beq : Val → Val → Bool
  | .str a, .str b => a == b
  | .bool a, .bool b => a == b
  | .pyNone, .pyNone => true
  | .list a, .list b => Val.beqList a b
  | .dict a, .dict b => Val.beqDict a b
  | _, _ => false

def Val.beqList : List Val → List Val → Bool
  | [], [] => true
  | a :: as, b :: bs => Val.beq a b && Val.beqList as bs
  | _, _ => false

def Val.beqDict : List (String × Val) → List (String × Val) → Bool
  | [], [] => true
  | (ka, va) :: as, (kb, vb) :: bs =>
      ka == kb && Val.beq va vb && Val.beqDict as bs
  | _, _ => false
end

/-- A Python dictionary with string keys, embedded as an association
list in insertion order (Python 3.7+ dicts preserve insertion order). -/
abbrev Data := List (String × Val)

/-- Dictionary lookup: `d[k]` / `d.get(k)` (first binding wins; a
well-formed `Data` never has duplicate keys). -/
def dataGet (d : Data) (k : String) : Option Val :=
  match d.find? (fun kv => kv.1 == k) with
  | some kv => some kv.2
  | none => none

/-- Membership test `k in d`. -/
def dataHas (d : Data) (k : String) : Bool :=
  (dataGet d k).isSome

/-- Dictionary update `d[k] = v`: replaces the value in place if the key
exists (keeping its position), otherwise appends the binding at the end,
exactly as Python dict assignment does. -/
def dataSet (d : Data) (k : String) (v : Val) : Data :=
  match d with
  | [] => [(k, v)]
  | (k', v') :: rest =>
      if k' == k then (k', v) :: rest else (k', v') :: dataSet rest k v

/-! ### Kernel-computable string helpers

`String.toLower`, `String.startsWith`, `String.drop`, … are implemented
on UTF-8 byte positions and do not reduce inside the Lean kernel.  The
embedding uses the following character-list equivalents, which agree
with the Python string operations they stand for on the inputs this
development evaluates. -/

/-- Python `str.lower()` (ASCII range; the embedding never evaluates it
on characters outside it). -/
def strLower (s : String) : String := String.mk (s.data.map Char.toLower)

/-- Python `str.startswith(p)`. -/
def strStarts (s p : String) : Bool := p.data.isPrefixOf s.data

/-- Python `str.endswith(p)`. -/
def strEnds (s p : String) : Bool := p.data.isSuffixOf s.data

/-- Python `s[n:]`. -/
def strDropN (s : String) (n : Nat) : String := String.mk (s.data.drop n)

/-- Substring containment scan at every suffix. -/
def containsAux (p : List Char) : List Char → Bool
  | [] => p.isEmpty
  | c :: rest => p.isPrefixOf (c :: rest) || containsAux p rest

/-- Python `s.find(p) >= 0`: substring containment. -/
def strContains (s p : String) : Bool := containsAux p.data s.data

/-- Python `str.strip()`: removes leading and trailing whitespace. -/
def strStrip (s : String) : String :=
  String.mk (((s.data.dropWhile Char.isWhitespace).reverse.dropWhile
    Char.isWhitespace).reverse)

/-- A diagnostic emitted through the run context / config: `ctx.warning`,
`config.warning`, `config.error`, `config.debug`, `config.unknown_value`
and `config.unrecognized_template` from `newpage.py`. -/
inductive Diag where
  | warning (msg : String)
  | error (msg : String)
  | debug (msg : String)
  | unknownValue (templateName value : String)
  | unrecognizedTemplate (templateName ctx : String)
deriving DecidableEq

/-- The elements Python iteration over a value yields: a list yields its
elements, a string its one-character strings, a dict its keys.  Booleans
are not iterable (iterating one raises `TypeError`); that case is
unreachable in every call this development makes and is modelled as the
empty sequence. -/
def pyElems : Val → List Val
  | .list l => l
  | .str s => s.data.map fun c => .str (String.mk [c])
  | .dict d => d.map fun kv => .str kv.1
  | .bool _ => []
  | .pyNone => []

/-- Modelled from the spec: `data_append` (module `datautils`, not under
`src/`) appends a value to the list stored under `key`, creating the
list if the key is absent (§9: each scope exposes `append(field,
value)`).  A non-list existing value is unreachable in the modelled
calls and leaves the data unchanged. -/
def data_append (d : Data) (k : String) (v : Val) : Data :=
  match dataGet d k with
  | some (.list l) => dataSet d k (.list (l ++ [v]))
  | some _ => d
  | none => dataSet d k (.list [v])

/-- Modelled from the spec: `data_extend` (module `datautils`, not under
`src/`) appends each value of a sequence under `key`. -/
def data_extend (d : Data) (k : String) (vs : List Val) : Data :=
  vs.foldl (fun d v => data_append d k v) d

/-- One iteration of the `merge_base` loop of `parse_language`
(`newpage.py` lines 2161–2169) for the parent binding `(k, v)`:
a key absent from `data` is copied; a list value in `data` is extended
(`data[k].extend(v)`); otherwise, if the existing value differs from
`v`, a warning is emitted and the existing value is kept. -/
def merge_base_step (data : Data) (k : String) (v : Val) : Data × List Diag :=
  match dataGet data k with
  | none => (dataSet data k v, [])
  | some (.list l) => (dataSet data k (.list (l ++ pyElems v)), [])
  | some w =>
      if Val.beq w v then (data, [])
      else (data, [.warning ("conflicting values for " ++ k)])

/-- Embeds `merge_base(data, base)` of `parse_language` (`newpage.py` lines
2161–2169): folds `merge_base_step` over the parent's bindings in
insertion order, accumulating warnings. -/
def merge_base : Data → Data → Data × List Diag
  | data, [] => (data, [])
  | data, (k, v) :: rest =>
      let s := merge_base_step data k v
      let r := merge_base s.1 rest
      (r.1, s.2 ++ r.2)

/-- The relevant fields of `WiktionaryConfig` consulted by
`parse_language` / `parse_any`. -/
structure Config where
  word : String
  capture_pronunciation : Bool := true
  capture_translations : Bool := true
  capture_compounds : Bool := false

/-- The mutable state of one `parse_language` walk: the page base, the
three staging buffers, the three accumulation lists, the heading stack,
and the diagnostics / section counters accumulated through the config. -/
structure PLState where
  base : Data
  sense_data : Data := []
  pos_data : Data := []
  etym_data : Data := []
  pos_datas : List Data := []
  etym_datas : List Data := []
  page_datas : List Data := []
  stack : List String := []
  diags : List Diag := []
  sectionCounts : List String := []

/-- Embeds `push_sense` (`newpage.py` lines 2171–2176): a non-empty sense
buffer is appended to `pos_datas` and cleared; an empty one is
ignored. -/
def push_sense (st : PLState) : PLState :=
  if st.sense_data.isEmpty then st
  else { st with pos_datas := st.pos_datas ++ [st.sense_data], sense_data := [] }

/-- Embeds `push_pos` (`newpage.py` lines 2178–2186): pushes the open sense,
merges `pos_data` into every collected sense and moves them to
`etym_datas`, then clears the part-of-speech buffers. -/
def push_pos (st : PLState) : PLState :=
  let st := push_sense st
  let step := st.pos_datas.foldl
    (fun (acc : List Data × List Diag) data =>
      let m := merge_base data st.pos_data
      (acc.1 ++ [m.1], acc.2 ++ m.2))
    (st.etym_datas, st.diags)
  { st with etym_datas := step.1, diags := step.2, pos_data := [], pos_datas := [] }

/-- Embeds `push_etym` (`newpage.py` lines 2188–2196): pushes the open
part-of-speech, merges `etym_data` into every collected record and
moves them to `page_datas`, then clears the etymology buffers. -/
def push_etym (st : PLState) : PLState :=
  let st := push_pos st
  let step := st.etym_datas.foldl
    (fun (acc : List Data × List Diag) data =>
      let m := merge_base data st.etym_data
      (acc.1 ++ [m.1], acc.2 ++ m.2))
    (st.page_datas, st.diags)
  { st with page_datas := step.1, diags := step.2, etym_data := [], etym_datas := [] }

/-- One item of a sense list (a `LIST_ITEM` node): `colon` records
whether the item's last list marker is `":"` (an indented example; the
source skips such items), `gloss` is the external renderer's
(`clean_node`) output for its non-sublist children. -/
structure SenseItem where
  colon : Bool := false
  gloss : String

/-- A node of one language's section subtree as `process_children` and
the section parsers of `parse_language` consume it.  Heading nodes carry
their rendered title.  Content nodes carry the projection of the
external renderer's output that the corresponding extractor consumes:
`sounds` the pronunciation variants regex-extracted from the rendered
section text (lines 2314–2385), `conjTemplates` the `new_ht` dicts
captured by `decl_conj_template_fn`, `entries` the (field, value) pairs
`parse_translations` appends to its target, `items` the linkage entry
values `parse_linkage` appends under the section's field. -/
inductive PNode where
  | sect (title : String) (children : List PNode)
  | senseList (items : List SenseItem)
  | sounds (entries : List Data)
  | conjTemplates (entries : List Data)
  | entries (pairs : List (String × Val))
  | items (vals : List Val)
  | text (s : String)

namespace ParseLanguage

/-- The regex `^\(([^)]*)\):?\s*` used on glosses (line 2220) and its
stripping: a leading parenthesized qualifier, an optional colon, and
trailing whitespace; returns the qualifier text and the rest. -/
def matchParenPrefix (s : String) : Option (String × String) :=
  match s.data with
  | '(' :: rest =>
    let inner := rest.takeWhile (fun c => c ≠ ')')
    match rest.drop inner.length with
    | ')' :: after =>
      let after := match after with
        | ':' :: a => a
        | a => a
      some (String.mk inner, String.mk (after.dropWhile Char.isWhitespace))
    | _ => none
  | _ => none

/-- Python `q.split(", ")` on character lists (greedy left-to-right, as
`str.split` with an explicit separator). -/
def splitCommaSp : List Char → List Char → List (List Char)
  | [], acc => [acc.reverse]
  | ',' :: ' ' :: rest, acc => acc.reverse :: splitCommaSp rest []
  | c :: rest, acc => splitCommaSp rest (c :: acc)

/-- Modelled from the spec: `parse_sense_tags` (module
`form_descriptions`, not under `src/`) parses the parenthesized
qualifier prefix of a gloss into tags on the sense (§4.2: "qualifier
content parsed as tags"); modelled as splitting the qualifier text at
commas and appending the pieces to `tags`. -/
def parse_sense_tags (q : String) (d : Data) : Data :=
  ((splitCommaSp q.data []).map String.mk).foldl
    (fun d t => data_append d "tags" (.str t)) d

/-- The nested `parse_sense(pos, node)` of `parse_language` (lines
2211–2232): pushes the open sense, renders the item's own children to a
gloss (the rendering itself is external; the item carries its result),
warns on an empty gloss, strips and parses a leading parenthesized
qualifier, strips a leading ", ", and appends the gloss. -/
def parse_sense (st : PLState) (pos : String) (item : SenseItem) : PLState :=
  let st := push_sense st
  let gloss := item.gloss
  let emptyDiag : List Diag :=
    if gloss == "" then [.warning (pos ++ ": empty gloss")] else []
  let (sd, gloss) := match matchParenPrefix gloss with
    | some (q, rest) => (parse_sense_tags q st.sense_data, rest)
    | none => (st.sense_data, gloss)
  let gloss := if strStarts gloss ", " then strDropN gloss 2 else gloss
  { st with sense_data := data_append sd "glosses" (.str gloss),
            diags := st.diags ++ emptyDiag }

/-- The scan of `parse_part_of_speech` over the section's children
(lines 2262–2280): children are inspected in order; the first `LIST`
node is collected and the scan stops; a sub-heading also stops the
scan.  Returns the collected sense list, if any. -/
def findSenseList : List PNode → Option (List SenseItem)
  | [] => none
  | .senseList items :: _ => some items
  | .sect _ _ :: _ => none
  | _ :: rest => findSenseList rest

/-- Embeds `parse_part_of_speech(posnode, pos)` (lines 2255–2301): records the
`pos` tag in the part-of-speech buffer, then either warns that no sense
list was found (leaving the buffer as is) or parses every non-example
item of the first sense list.  The head-text parsing of the `pre` nodes
(`clean_node` + `parse_word_head`) operates on the external renderer's
output and is outside this model. -/
def parse_part_of_speech (st : PLState) (children : List PNode) (pos : String) :
    PLState :=
  let st := { st with pos_data := dataSet st.pos_data "pos" (.str pos) }
  match findSenseList children with
  | none =>
      { st with diags := st.diags ++ [.warning (pos ++ ": no sense list found")] }
  | some items =>
      items.foldl (fun st item =>
        if item.colon then st else parse_sense st pos item) st

/-- The pronunciation variants carried by a Pronunciation section's
content nodes. -/
def soundsOf (children : List PNode) : List Data :=
  children.foldl (fun acc n =>
    match n with
    | .sounds es => acc ++ es
    | _ => acc) []

/-- Appends every extracted pronunciation variant to the target's
`sounds` list. -/
def addSounds (children : List PNode) (d : Data) : Data :=
  (soundsOf children).foldl (fun d e => data_append d "sounds" (.dict e)) d

/-- Embeds `parse_pronunciation(node)` (lines 2303–2385): the target is the
etymology buffer when it is non-empty, else the page base (line 2313,
`data = etym_data if etym_data else base`), chosen once per call; every
extracted variant is appended to the target's `sounds` list.  The
extraction of the variants from the rendered section text is carried by
the `sounds` nodes. -/
def parse_pronunciation (st : PLState) (children : List PNode) : PLState :=
  if st.etym_data.isEmpty then { st with base := addSounds children st.base }
  else { st with etym_data := addSounds children st.etym_data }

/-- The conjugation templates carried by a Declension/Conjugation
section's content nodes. -/
def conjsOf (children : List PNode) : List Data :=
  children.foldl (fun acc n =>
    match n with
    | .conjTemplates es => acc ++ es
    | _ => acc) []

/-- Embeds `parse_declension_conjugation(node)` (lines 2386–2419): each
matching template's argument dict is appended to `pos_data` under
`conjugation`. -/
def parse_declension_conjugation (st : PLState) (children : List PNode) :
    PLState :=
  let pd := (conjsOf children).foldl
    (fun d e => data_append d "conjugation" (.dict e)) st.pos_data
  { st with pos_data := pd }

/-- The (field, value) pairs carried by a Translations section's
content nodes. -/
def entriesOf (children : List PNode) : List (String × Val) :=
  children.foldl (fun acc n =>
    match n with
    | .entries ps => acc ++ ps
    | _ => acc) []

/-- The entry values carried by a linkage section's content nodes. -/
def itemsOf (children : List PNode) : List Val :=
  children.foldl (fun acc n =>
    match n with
    | .items vs => acc ++ vs
    | _ => acc) []

/-- Modelled from the spec: the part-of-speech heading-name → canonical
identifier table (`parts_of_speech` module, not under `src/`; §6
collaborator contract maps heading names to identifiers, with optional
warnings).  Only plain entries exercised by this development are
included; keys are lowercased heading titles. -/
def part_of_speech_map : List (String × String) :=
  [("noun", "noun"), ("verb", "verb"), ("adjective", "adj"),
   ("proper noun", "name"), ("adverb", "adv")]

/-- Embeds `stack[-1] in part_of_speech_map` (lines 2758, 2766, …): whether
the innermost open heading is a part-of-speech, which selects `pos_data`
over `etym_data` as the target of the translation/linkage extractors. -/
def targetIsPos (st : PLState) : Bool :=
  match st.stack.getLast? with
  | some s => (part_of_speech_map.lookup s).isSome
  | none => false

/-- Applies `f` to the extractor target: `pos_data` if the innermost
open heading is a part-of-speech, else `etym_data`. -/
def withTarget (st : PLState) (f : Data → Data) : PLState :=
  if targetIsPos st then { st with pos_data := f st.pos_data }
  else { st with etym_data := f st.etym_data }

/-- Embeds `parse_translations(data, xlatnode)` reduced to its appends: each
(field, value) pair the extractor produces is appended to the target
(the entry-level parsing operates on the external renderer's output and
is carried by the `entries` nodes). -/
def parse_translations (children : List PNode) (d : Data) : Data :=
  (entriesOf children).foldl (fun d kv => data_append d kv.1 kv.2) d

/-- The nested `parse_linkage(data, field, linkagenode)` reduced to its
appends: each entry value is appended to the target under `field`. -/
def parse_linkage (field : String) (children : List PNode) (d : Data) : Data :=
  (itemsOf children).foldl (fun d v => data_append d field v) d

/-- Embeds `process_children(langnode)` (lines 2710–2805): the recursive
section dispatcher, embedded with a structural fuel argument (one unit
per node visited and per recursion level; every theorem supplies ample
fuel).  Dispatch per heading title mirrors the source's `elif` chain:
Pronunciation, `Etymology*`, part-of-speech, Translations,
Declension/Conjugation, the linkage headings, the ignored headings, and
the recursive fall-through that counts unrecognized sections. -/
def runNodes (cfg : Config) : Nat → PLState → List PNode → PLState
  | 0, st, _ => st
  | _ + 1, st, [] => st
  | f + 1, st, n :: rest =>
      let st1 :=
        match n with
        | .sect t ch =>
          let pos := strLower t
          if t == "Pronunciation" then
            if cfg.capture_pronunciation then
              let st' := parse_pronunciation st ch
              if !(dataHas st'.etym_data "sounds") && !(dataHas st'.base "sounds")
              then { st' with diags := st'.diags ++
                      [.warning "no pronunciations found from pronunciation section"] }
              else st'
            else st
          else if strStarts t "Etymology" then
            let st' := push_etym st
            let st' := runNodes cfg f { st' with stack := st'.stack ++ [t] } ch
            { st' with stack := st'.stack.dropLast }
          else
            match part_of_speech_map.lookup pos with
            | some mpos =>
              let st' := push_pos st
              let st' := parse_part_of_speech st' ch mpos
              let st' := runNodes cfg f { st' with stack := st'.stack ++ [mpos] } ch
              { st' with stack := st'.stack.dropLast }
            | none =>
              if t == "Translations" then
                withTarget st (parse_translations ch)
              else if t == "Declension" || t == "Conjugation" then
                parse_declension_conjugation st ch
              else if pos == "hypernyms" || pos == "hyponyms" || pos == "antonyms"
                   || pos == "synonyms" || pos == "abbreviations" || pos == "proverbs" then
                withTarget st (parse_linkage pos ch)
              else if pos == "compounds" then
                if cfg.capture_compounds then withTarget st (parse_linkage "compounds" ch)
                else st
              else if pos == "derived terms" then
                withTarget st (parse_linkage "derived" ch)
              else if pos == "related terms" || pos == "related characters" then
                withTarget st (parse_linkage "related" ch)
              else if t == "Anagrams" || t == "Further reading" || t == "References"
                   || t == "Quotations" || t == "Descendants" then
                st
              else
                let st' := { st with sectionCounts := st.sectionCounts ++ [t],
                                     stack := st.stack ++ [t] }
                let st' := runNodes cfg f st' ch
                { st' with stack := st'.stack.dropLast }
        | _ => st
      runNodes cfg f st1 rest

/-- Embeds `parse_language(ctx, config, langnode, language, lang_code)` (lines
2139–2819): builds the base fields, walks the language section's
children with the heading stack initialized to `["TOP"]`, flushes all
open scopes with a final `push_etym`, and merges the (possibly updated)
base into every collected record.  Returns the records and the
diagnostics. -/
def parse_language (cfg : Config) (fuel : Nat) (children : List PNode)
    (language lang_code : String) : List Data × List Diag :=
  let base : Data :=
    [("word", .str cfg.word), ("lang", .str language), ("lang_code", .str lang_code)]
  let st := runNodes cfg fuel { base := base, stack := ["TOP"] } children
  let st := push_etym st
  st.page_datas.foldl
    (fun (acc : List Data × List Diag) data =>
      let m := merge_base data st.base
      (acc.1 ++ [m.1], acc.2 ++ m.2))
    ([], st.diags)

end ParseLanguage

/-- A template invocation as the module-level extractors of `newpage.py`
see it through `wikitextparser`: a stripped name, the positional
arguments in order, and the named arguments.  Argument values are
carried in already-cleaned form (`t_arg`/`t_vec`/`t_dict` clean each
value through the external `clean_value` before use). -/
structure Template where
  name : String
  posArgs : List String := []
  named : List (String × String) := []

/-- Embeds `t_arg(config, t, i)` for a positional argument number `i ≥ 1`
(`newpage.py` lines 133–153): the cleaned value, or `""` when absent. -/
def t_arg (t : Template) (i : Nat) : String := t.posArgs.getD (i - 1) ""

/-- Embeds `t_arg(config, t, k)` for a named argument. -/
def t_argN (t : Template) (k : String) : String := (t.named.lookup k).getD ""

/-- Removes trailing empty strings (`while vec and not vec[-1]:
vec.pop()`). -/
def dropTrailingEmpty (l : List String) : List String :=
  (l.reverse.dropWhile (· == "")).reverse

/-- Embeds `t_vec(config, t)` (`newpage.py` lines 117–130): positional
arguments 1–19 with trailing empties removed. -/
def t_vec (t : Template) : List String :=
  dropTrailingEmpty ((List.range 19).map (fun i => t_arg t (i + 1)))

/-- Embeds `t_dict(config, t)` (`newpage.py` lines 101–115): all arguments
keyed by name (positional arguments by their numeric strings), with the
template name added under `template_name`. -/
def t_dict (t : Template) : Data :=
  (t.posArgs.enum.map (fun iv => (toString (iv.1 + 1), Val.str iv.2)))
    ++ t.named.map (fun kv => (kv.1, Val.str kv.2))
    ++ [("template_name", Val.str t.name)]

/-- Python truthiness of an embedded value: empty strings, empty
containers, `False` and `None` are falsy. -/
def pyTruthy : Val → Bool
  | .str s => !(s == "")
  | .bool b => b
  | .pyNone => false
  | .list l => !l.isEmpty
  | .dict d => !d.isEmpty

namespace ParseAny

/-- Embeds the regex `^[a-z][a-z][a-z]?-(conj|decl|infl|conjugation|declension|inflection)($|-)`
(`newpage.py` line 2041): a two- or three-letter lowercase language
prefix, a dash, one of the listed words, then end of name or a dash. -/
def conjDeclNameMatch (name : String) : Bool :=
  let p := name.data.takeWhile (fun c => 'a' ≤ c && c ≤ 'z')
  (p.length == 2 || p.length == 3) &&
  (match name.data.drop p.length with
   | '-' :: tail =>
     ["conj", "decl", "infl", "conjugation", "declension", "inflection"].any
       (fun w => w.data.isPrefixOf tail &&
         (tail.length == w.length || tail.getD w.length ' ' == '-'))
   | _ => false)

/-- Embeds the regex `^(([^/]+)/translations)(#(.*))?$` (`newpage.py` line 1983): returns
`(tpage, tword, tsect)` on a match. -/
def sectionLinkMatch (target : String) : Option (String × String × Option String) :=
  let a := target.data.takeWhile (fun c => c ≠ '/')
  if a.isEmpty then none
  else
    let tpage := String.mk a ++ "/translations"
    match target.data.drop a.length with
    | [] => none
    | rest =>
      if "/translations".data.isPrefixOf rest then
        match rest.drop "/translations".length with
        | [] => some (tpage, String.mk a, none)
        | '#' :: sect => some (tpage, String.mk a, some (String.mk sect))
        | _ => none
      else none

/-- The running state of the `parse_any` template loop: the target
data, the active `translation_sense` marker, and the diagnostics. -/
structure AnyState where
  data : Data
  sense : Option String := none
  diags : List Diag := []

/-- One iteration of the template loop of `parse_any` (`newpage.py`
lines 1956–2060), faithful to the `if`/`elif` chain: `alter`,
`section link`, `trans-top` (sets the sense marker), `trans-bottom`
(clears it), `t`/`t+` (records a translation, tagging it with the
marker when the marker is truthy), the conjugation-template family,
`enum`, and the misplaced-`IPA` error; any other name is skipped.
Returns `none` where the Python raises (`{{alter}}` with no
arguments). -/
def parse_any_step (cfg : Config) (sectitle : String) (st : AnyState)
    (t : Template) : Option AnyState :=
  let name := t.name
  if name == "alter" then
    let vec := t_vec t
    match vec with
    | [] => none
    | _ =>
      let brk := match vec.findIdx? (· == "") with
        | some i => i
        | none => vec.length - 1
      let data := (List.range brk).foldl (fun data i =>
        let alt := vec.getD i ""
        let dialect := if brk + 1 + i < vec.length then vec.getD (brk + 1 + i) "" else ""
        let dt : Data := if dialect == "" then [("word", .str alt)]
          else [("word", .str alt), ("dialect", .str dialect)]
        data_append data "alternative" (.dict dt)) st.data
      some { st with data := data }
  else if name == "section link" then
    let target := t_arg t 1
    match sectionLinkMatch target with
    | none => some st
    | some (tpage, tword, tsect) =>
      let diags := if tword == cfg.word then st.diags
        else st.diags ++ [.unknownValue name "TRANSLATIONS LINK"]
      let sectVal := match tsect with
        | some s => Val.str s
        | none => Val.pyNone
      some { st with
        data := data_append st.data "translation_link" (.list [.str tpage, sectVal]),
        diags := diags }
  else if name == "trans-top" then
    some { st with sense := some (t_arg t 1) }
  else if name == "trans-bottom" then
    some { st with sense := none }
  else if name == "t" || name == "t+" then
    if cfg.capture_translations then
      let vec := t_vec t
      if vec.length < 2 then some st
      else
        let lang := vec.getD 0 ""
        let transl := vec.getD 1 ""
        let markers := vec.drop 2
        let alt := t_argN t "alt"
        let roman := t_argN t "tr"
        let script := t_argN t "sc"
        let tr : Data := [("lang", .str lang), ("word", .str transl)]
        let tr := match st.sense with
          | some s => if s == "" then tr else tr ++ [("sense", .str s)]
          | none => tr
        let tr := if markers.isEmpty then tr
          else tr ++ [("tags", .list (markers.map .str))]
        let tr := if alt == "" then tr else tr ++ [("alt", .str alt)]
        let tr := if roman == "" then tr else tr ++ [("roman", .str roman)]
        let tr := if script == "" then tr else tr ++ [("script", .str script)]
        some { st with data := data_append st.data "translations" (.dict tr) }
    else some st
  else if conjDeclNameMatch name then
    some { st with data := data_append st.data "conjugation" (.dict (t_dict t)) }
  else if name == "enum" then
    let dt : Data := [("lang", .str (t_arg t 1)), ("prev", .str (t_arg t 2)),
                      ("next", .str (t_arg t 3)), ("value", .str (t_arg t 4))]
    some { st with data := data_append st.data "enum" (.dict dt) }
  else if name == "IPA" && !(sectitle == "pronunciation") then
    some { st with diags := st.diags ++
      [.error ("IPA outside pronunciation in section " ++ sectitle)] }
  else some st

/-- The wikilink pass at the end of `parse_any` (`newpage.py` lines
2062–2072): `Category:` links become `topics` entries, with a
language-code prefix (`^[a-z][a-z][a-z]?:`) stripped. -/
def parse_any_link (data : Data) (target : String) : Data :=
  let target := strStrip target
  if strStarts target "Category:" then
    let t1 := strDropN target 9
    let p := t1.data.takeWhile (fun c => 'a' ≤ c && c ≤ 'z')
    let t2 := if (p.length == 2 || p.length == 3) &&
                 t1.data.getD p.length ' ' == ':'
      then String.mk (t1.data.drop (p.length + 1)) else t1
    data_append data "topics" (.dict [("word", .str t2)])
  else data

/-- Embeds `parse_any(config, data, text, sectitle, p)` (`newpage.py` lines
1944–2072) restricted to its template and wikilink passes: folds
`parse_any_step` over the templates in document order with the
`translation_sense` marker starting at `None`, then processes the
wikilinks. -/
def parse_any (cfg : Config) (data : Data) (sectitle : String)
    (templates : List Template) (wikilinks : List String) :
    Option (Data × List Diag) :=
  let init : AnyState := { data := data }
  let step := templates.foldlM (m := Option)
    (fun st t => parse_any_step cfg sectitle st t) init
  match step with
  | none => none
  | some st =>
    some (wikilinks.foldl (fun d w => parse_any_link d w) st.data, st.diags)

end ParseAny

namespace Linkage

/-- Insertion sort on strings, with the lexicographic order Python
`sorted` uses on the qualifier strings. -/
def insertSorted (x : String) : List String → List String
  | [] => [x]
  | y :: rest => if x ≤ y then x :: y :: rest else y :: insertSorted x rest

/-- Python `tuple(sorted(qualifiers))`. -/
def sortStrs (l : List String) : List String := l.foldr insertSorted []

/-- The word-cleaning prefix of `add_linkage` (`newpage.py` lines
1605–1625): strips the value, filters thesaurus/`See also`/category
references, removes `:`/`See `/trailing-period decorations, strips
again, and filters empty and `"en"` words.  Returns the cleaned word,
or `none` when the call returns without adding anything. -/
def cleanLinkWord (v : String) : Option String :=
  let v := strStrip v
  if strStarts v "See also" then none
  else if strContains v " Thesaurus:" then none
  else if strLower v == "see also" then none
  else if strStarts v "Category:" then none
  else
    let v := if strStarts v ":Category:" then strDropN v 1
      else if strStarts v "See " then strDropN v 4
      else v
    let v := if strEnds v "." then String.mk v.data.dropLast else v
    let v := strStrip v
    if v == "" || v == "en" then none else some v

/-- The identity by which `parse_linkage` deduplicates edges:
`(kind, word, sense, tuple(sorted(qualifiers)))` (line 1626). -/
abbrev LinkKey := String × String × Option String × List String

/-- The state one `parse_linkage` invocation threads through its
`add_linkage` calls: the `added` identity set (shared by all items of
the invocation), the data the edges are appended to, and the pending
qualifiers. -/
structure LinkState where
  added : List LinkKey := []
  data : Data := []
  qualifiers : List String := []

/-- The edge dict `{word, sense?, tags?}` that `add_linkage` appends
for a cleaned word, a `sense_text` and the pending qualifiers
(`newpage.py` lines 1629–1634). -/
def edgeDict (w : String) (sense_text : Option String)
    (qualifiers : List String) : Data :=
  let dt : Data := [("word", .str w)]
  let dt := match sense_text with
    | some s => if s == "" then dt else dt ++ [("sense", .str s)]
    | none => dt
  if qualifiers.isEmpty then dt
  else dt ++ [("tags", .list (qualifiers.map .str))]

/-- Embeds `add_linkage(kind, v)` of the module-level `parse_linkage`
(`newpage.py` lines 1601–1640): cleans the word; on survival computes
the identity key; an already-seen key returns with nothing added; a new
key is recorded and the edge `{word, sense?, tags?}` is appended to
`data` under `kind`, after which the qualifiers are cleared. -/
def add_linkage (st : LinkState) (kind : String) (sense_text : Option String)
    (v : String) : LinkState :=
  match cleanLinkWord v with
  | none => st
  | some w =>
    let key : LinkKey := (kind, w, sense_text, sortStrs st.qualifiers)
    if st.added.contains key then st
    else
      { added := st.added ++ [key],
        data := data_append st.data kind (.dict (edgeDict w sense_text st.qualifiers)),
        qualifiers := [] }

/-- A sequence of `add_linkage` calls within one `parse_linkage`
invocation, each call supplying the relation kind, the ambient
`sense_text` and the raw word. -/
def runLinkageCalls (st : LinkState) : List (String × Option String × String) → LinkState
  | [] => st
  | (k, s, v) :: rest => runLinkageCalls (add_linkage st k s v) rest

/-- The number of edges stored under `kind` whose content equals `dt`. -/
def edgeCount (data : Data) (kind : String) (dt : Data) : Nat :=
  match dataGet data kind with
  | some (.list l) => (l.filter (fun e => Val.beq e (.dict dt))).length
  | _ => 0

end Linkage

namespace ColorPanel

/-- Matches `[0-9A-Fa-f]`. -/
def isHexDigit (c : Char) : Bool :=
  ('0' ≤ c && c ≤ '9') || ('A' ≤ c && c ≤ 'F') || ('a' ≤ c && c ≤ 'f')

/-- The per-value normalization of the `color panel` branch of
`parse_sense` (`newpage.py` lines 320–328): a six-hex-digit value is
prefixed with `#`; a three-hex-digit value is doubled digit-wise and
prefixed with `#`; anything else is stored as is.  The character case
of the digits is preserved. -/
def color_panel_value (v : String) : String :=
  if v.data.length == 6 && v.data.all isHexDigit then "#" ++ v
  else
    match v.data with
    | [a, b, c] =>
      if isHexDigit a && isHexDigit b && isHexDigit c then
        String.mk ['#', a, a, b, b, c, c]
      else v
    | _ => v

/-- The whole `color panel` branch: each value of the template's
argument vector is normalized and appended under `color`. -/
def color_panel_add (vec : List String) (data : Data) : Data :=
  vec.foldl (fun d v => data_append d "color" (.str (color_panel_value v))) data

end ColorPanel

namespace ParsePage

/-- Equality of two `dict.get` results (Python `==` where a missing key
yields `None`). -/
def optValBeq : Option Val → Option Val → Bool
  | some a, some b => Val.beq a b
  | none, none => true
  | _, _ => false

/-- Record lookup in the page store (records are shared between
`by_lang` groups and the `datas` list by reference; the store holds the
single mutable copy of each). -/
def storeGet (store : List Data) (i : Nat) : Data := store.getD i []

/-- In-place update of one record of the store. -/
def storeSet (store : List Data) (i : Nat) (d : Data) : List Data :=
  store.set i d

/-- Embeds `by_lang[data["lang"]].append(data)`: appends index `i` to the
group keyed by `k`, creating the group at the end on first sight
(`collections.defaultdict` preserves first-seen key order). -/
def addByLang (groups : List (Val × List Nat)) (k : Val) (i : Nat) :
    List (Val × List Nat) :=
  match groups with
  | [] => [(k, [i])]
  | (k', is) :: rest =>
      if Val.beq k' k then (k', is ++ [i]) :: rest
      else (k', is) :: addByLang rest k i

/-- The `by_lang` construction of `parse_page` (`newpage.py` lines
2875–2880): records without a `lang` key are skipped (with a debug
message); the rest are grouped by their `lang` value. -/
def buildByLang (store : List Data) : List (Val × List Nat) :=
  store.enum.foldl (fun groups id =>
    match dataGet id.2 "lang" with
    | none => groups
    | some k => addByLang groups k id.1) []

/-- The compatible part-of-speech test of the conjugation-sharing loop
(`newpage.py` lines 2902–2910): identical, one of the fixed pairs, or
verb → participle-tagged adjective. -/
def conjCompatible (pos : Val) (dt : Data) : Bool :=
  let cpos := dataGet dt "pos"
  optValBeq (some pos) cpos ||
  (match pos, cpos with
   | .str p, some (.str c) =>
     ((p == "noun") && (c == "adj")) || ((p == "noun") && (c == "name")) ||
     ((p == "name") && (c == "noun")) || ((p == "name") && (c == "adj")) ||
     ((p == "adj") && (c == "noun")) || ((p == "adj") && (c == "name")) ||
     ((p == "adj") && (c == "verb") &&
       ((match dataGet dt "senses" with
         | some v => pyElems v
         | none => []).any (fun s =>
           match s with
           | .dict sd =>
             (match dataGet sd "tags" with
              | some v => pyElems v
              | none => []).any (fun tg => Val.beq tg (.str "participle"))
           | _ => false)))
   | _, _ => false)

/-- The donor search `for dt in datas:` of the conjugation-sharing loop
(`newpage.py` lines 2896–2914): the first record of `datas` with the
same `lang`, a truthy `conjugation`, and a compatible part-of-speech
supplies its conjugation value; the loop `break`s at the first hit. -/
def findConjDonor (store : List Data) (lang : Option Val) (pos : Val) :
    List Nat → Option Val
  | [] => none
  | j :: rest =>
    let dt := storeGet store j
    if !(optValBeq (dataGet dt "lang") lang) then
      findConjDonor store lang pos rest
    else
      let conjs := (dataGet dt "conjugation").getD (.list [])
      if !(pyTruthy conjs) then findConjDonor store lang pos rest
      else if conjCompatible pos dt then some conjs
      else findConjDonor store lang pos rest

/-- The per-group conjugation-sharing pass (`newpage.py` lines
2891–2914), with `datasIdx` the indices of the stale `datas` variable
(the records of the last language processed by the `parse_language`
loop — not of the current group).  Returns `none` where the Python
`assert pos` fails. -/
def conjPass (datasIdx : List Nat) : List Data → List Nat → Option (List Data)
  | store, [] => some store
  | store, i :: rest =>
    let data := storeGet store i
    if dataHas data "conjugation" then conjPass datasIdx store rest
    else
      match dataGet data "pos" with
      | none => none
      | some pos =>
        if !(pyTruthy pos) then none
        else
          let store := match findConjDonor store (dataGet data "lang") pos datasIdx with
            | some conjs => storeSet store i (dataSet data "conjugation" conjs)
            | none => store
          conjPass datasIdx store rest

/-- Marks the topic entries of the last record in place
(`t["inaccurate"] = True`); a non-dict entry makes the Python raise,
returning `none`. -/
def markTopics : List Val → Option (List Val)
  | [] => some []
  | .dict d :: rest =>
      match markTopics rest with
      | some r => some (.dict (dataSet d "inaccurate" (.bool true)) :: r)
      | none => none
  | _ => none

/-- The topic-propagation pass for one language group (`newpage.py`
lines 2916–2924): with more than one record, the last record's topics
are all marked `inaccurate` in place (the shared dict objects make the
last record's own list show the marks), and every earlier record's
topics become its own topics plus the marked ones, skipping records for
which the combined list is empty. -/
def topicsPass (store : List Data) (groupIdx : List Nat) : Option (List Data) :=
  if groupIdx.length ≤ 1 then some store
  else
    match groupIdx.getLast? with
    | none => some store
    | some lastIdx =>
      let lastData := storeGet store lastIdx
      let topics := match dataGet lastData "topics" with
        | some v => pyElems v
        | none => []
      match markTopics topics with
      | none => none
      | some marked =>
        let store := if topics.isEmpty then store
          else storeSet store lastIdx (dataSet lastData "topics" (.list marked))
        some (groupIdx.dropLast.foldl (fun store i =>
          let data := storeGet store i
          let own := match dataGet data "topics" with
            | some v => pyElems v
            | none => []
          let newTopics := own ++ marked
          if newTopics.isEmpty then store
          else storeSet store i (dataSet data "topics" (.list newTopics))) store)

/-- The post-processing half of `parse_page` (`newpage.py` lines
2884–2926): records of all languages are grouped by their `lang` value;
per group, the conjugation-sharing pass (searching donors in the stale
`datas` list — the last language's records) runs, then the topic
propagation; the output is the concatenation of the groups' final
records in group order.  `langs` holds each `parse_language` result in
page order.  Returns `none` where the Python raises. -/
def parse_page_post (langs : List (List Data)) : Option (List Data) :=
  let store := langs.flatten
  let groups := buildByLang store
  let lastLen := (langs.getLastD []).length
  let off := store.length - lastLen
  let datasIdx := (List.range lastLen).map (off + ·)
  let final := groups.foldlM (m := Option) (fun store g =>
    match conjPass datasIdx store g.2 with
    | none => none
    | some store => topicsPass store g.2) store
  match final with
  | none => none
  | some store => some (groups.map (fun g => g.2.map (storeGet store))).flatten

end ParsePage

namespace ParseSense

/-- Modelled from the spec: `clean_quals` (module `clean`, not under
`src/`) maps qualifier strings to the Tag Normalizer's canonical tag
strings (§4.1); modelled as the identity embedding of already-canonical
qualifier values. -/
def clean_quals (l : List String) : List String := l

/-- Every template name the branches of the module-level `parse_sense`
template dispatch (`newpage.py` lines 206–1345) test by exact name:
the union of all `name == "…"` and `name in (…)` guards of the
`if`/`elif` chain, in first-occurrence order with duplicates removed.
Membership in this list means the dispatch consumes the template before
reaching the unrecognized-template branch. -/
def sense_handled_names : List String :=
  [ "lb", "label", "context", "term-context", "term-label", "lbl", "tlb",
    "tcx", "g2", "qual", "qualifier", "q", "qf", "i", "a", "accent", "ux",
    "uxi", "usex", "afex", "zh-x", "prefixusex", "ko-usex", "ko-x", "hi-x",
    "ja-usex-inline", "ja-x", "quotei", "non-gloss definition", "n-g",
    "ngd", "non-gloss", "non gloss definition", "senseid", "sense", "Sense",
    "&lit", "&oth", "given name", "forename", "historical given name",
    "surname", "taxlink", "taxlinkwiki", "taxon", "vern", "color panel",
    "colour panel", "colorbox", "colourbox", "number box", "SI-unit",
    "SI-unit-2", "SI-unit-np", "SI-unit-abb", "SI-unit-abbnp",
    "SI-unit-abb2", "slim-wikipedia", "wikipedia", "wikispecies", "w", "W",
    "swp", "pedlink", "specieslink", "comcatlite", "Wikipedia",
    "taxlinknew", "wtorw", "wj", "w2", "morse code for", "morse code of",
    "morse code abbreviation", "morse code prosign", "mul-semaphore-for",
    "mul-semaphore for", "ja-semaphore for", "Latn-def", "translation hub",
    "translation only", "alternative form of", "alt form", "alt form of",
    "alternative_form_of", "alternative spelling of",
    "aspirate mutation of", "alternate spelling of", "altspelling",
    "pt-apocopic-verb", "soft mutation of", "hard mutation of",
    "mixed mutation of", "lenition of", "altform", "alt-form",
    "apocopic form of", "altcaps", "alternative name of",
    "alternative capitalisation of", "alt case",
    "alternative capitalization of", "alternate form of",
    "Template:alternative case form of", "alternative case form of",
    "alt-sp", "alt sp", "alternative typography of", "elongated form of",
    "city nickname", "Nom form of", "han tu form of", "han form of",
    "caret notation of", "syncopic form of", "alternative term for",
    "altspell", "alter", "combining form of", "spelling of", "honoraltcaps",
    "honor alt case", "standspell", "standard spelling of", "stand sp",
    "standard form of", "synonyms", "synonym of", "syonyms", "syn of",
    "altname", "synonym", "Br. English form of", "eye dialect of",
    "eye dialect", "eye-dialect of", "pronunciation spelling",
    "pronunciation respelling of", "pronunciation spelling of",
    "obsolete spelling of", "obsolete form of", "obs sp", "obs form",
    "obsolete typography of", "obsolete sp", "medieval spelling of",
    "superseded spelling of", "former name of", "sup sp",
    "archaic spelling of", "dated spelling of", "archaic form of",
    "dated form of", "informal spelling of", "informal form of",
    "euphemistic form of", "euphemistic spelling of", "eclipsis of",
    "singulative of", "ga-lenition of", "t-prothesis of", "h-prothesis of",
    "deliberate misspelling of", "misconstruction of", "misspelling of",
    "common misspelling of", "misspelling form of", "missp",
    "de-umlautless spelling of", "nonstandard form of",
    "nonstandard spelling of", "rare form of", "rare spelling of",
    "rareform", "uncommon spelling of", "uncommon form of", "rare sp",
    "initialism of", "init of", "abbreviation of", "abbr of", "short for",
    "acronym of", "clipping of", "clip", "clipping", "clip of",
    "aphetic form of", "short form of", "ellipsis of", "ellipse of",
    "short of", "abbreviation", "abb", "contraction of", "only used in",
    "only in", "inflection of", "infl of", "inflected form of", "form of",
    "native or resident of", "agent noun of", "nominalization of",
    "feminine plural of", "feminine singular of", "masculine plural of",
    "neuter plural of", "feminine noun of", "feminine equivalent of",
    "verbal noun of", "ar-verbal noun of", "abstract noun of",
    "masculine singular of", "neuter singular of", "feminine of",
    "masculine of", "masculine noun of", "participle of",
    "present participle of", "gerund of", "en-ing form of",
    "present tense of", "present of", "past of", "past sense of",
    "en-past of", "past tense of", "en-simple past of", "passive of",
    "past participle of", "feminine plural past participle of",
    "feminine singular past participle of",
    "masculine plural past participle of",
    "masculine singular past participle of", "perfective form of",
    "en-third-person singular of", "en-third person singular of",
    "imperative of", "nominative plural of", "alternative plural of",
    "plural of", "en-plural noun", "plural form of", "singular of",
    "singular form of", "diminutive of", "dim of", "endearing form of",
    "vocative plural of", "vocative singular of", "imperfective form of",
    "comparative of", "en-comparative of", "superlative of",
    "en-superlative of", "attributive of", "attributive form of",
    "accusative singular of", "accusative plural of", "genitive of",
    "genitive singular of", "genitive plural of", "dative plural of",
    "dative of", "dative singular of", "female equivalent of",
    "augmentative of", "reflexive of", "en-irregular plural of",
    "en-archaic second-person singular of",
    "en-archaic second-person singular past of",
    "second-person singular of", "topic form",
    "en-second-person singular past of",
    "en-second person singular past of", "second-person singular past of",
    "second person singular past of", "en-archaic third-person singular of",
    "pejorative of", "noun form of", "+preo", "+obj", "+OBJ",
    "construed with", "verb form of", "es-adj form of", "es-compound of",
    "es-verb form of", "es-demonstrative-accent-usage", "it-adj form of",
    "nl-verb form of", "nl-noun form of", "nl-adj form of", "nl-pronadv of",
    "sv-noun-form-def", "definite singular of", "definite plural of",
    "indefinite plural of", "sv-noun-form-def-pl", "sv-noun-form-indef-pl",
    "sv-noun-form-indef-gen", "sv-noun-form-indef-gen-pl",
    "sv-noun-form-def-gen-pl", "sv-proper-noun-gen", "sv-noun-form-def-gen",
    "sv-noun-form-abs-def+pl", "sv-noun-form-abs-pl",
    "sv-adj-form-abs-def-m", "sv-adj-form-abs-indef-n",
    "sv-adj-form-abs-def+pl", "sv-adj-form-abs-pl", "sv-adj-form-abs-def",
    "sv-adj-form-comp", "sv-adv-form-comp", "sv-adj-form-sup",
    "sv-adv-form-sup", "sv-adj-form-sup-attr", "sv-adj-form-sup-attr-m",
    "sv-adj-form-sup-pred", "superlative predicative of",
    "sv-verb-form-pre", "sv-verb-form-imp", "sv-verb-form-past",
    "supine of", "sv-verb-form-sup", "sv-verb-form-sup-pass",
    "sv-verb-form-subjunctive", "sv-verb-form-inf-pass",
    "sv-verb-form-pre-pass", "sv-verb-form-past-pass",
    "sv-verb-form-prepart", "sv-verb-form-pastpart", "de-verb form of",
    "de-zu-infinitive of", "de-superseded spelling of", "pt-verb form of",
    "pt-verb-form-of", "pt-obsolete-hellenism", "pt-obsolete hellenism",
    "pt-superseded-silent-letter-1990", "pt-superseded-hyphen",
    "pt-superseded-paroxytone", "pt-obsolete-éia", "pt-obsolete-ü",
    "pt-obsolete-ôo", "pt-obsolete-secondary-stress",
    "pt-obsolete-differential-accent", "pt-obsolete-silent-letter-1911",
    "pt-adj form of", "pt-adj-form-of", "pt-noun form of",
    "ja-kyujitai spelling of", "ja-kyu sp", "ja-past of verb", "ja-usex",
    "ja-verb", "zh-old-name", "18th c.", "zh-alt-form", "zh-altname",
    "zh-alt-name", "zh-alt-term", "zh-altterm", "zh-short", "zh-abbrev",
    "zh-short-comp", "mfe-short of", "zh-misspelling", "zh-synonym",
    "zh-synonym of", "zh-syn-saurus", "zh-dial", "zh-erhua form of",
    "zh-mw", "zh-classifier", "zh-div", "ant", "antonym", "antonyms",
    "hypo", "hyponym", "hyponyms", "coordinate terms", "hyper", "hypernym",
    "hypernyms", "mer", "meronym", "meronyms", "holonyms", "holonym",
    "troponyms", "troponym", "derived", "derived terms", "†", "zh-obsolete",
    "fi-infinitive of", "fi-participle of", "fi-verb form of", "fi-form of",
    "conjugation of", "place", "USstate", "place:Brazil/state",
    "place:Brazil/capital", "place:Brazil/state capital",
    "place:state capital of Brazil", "place:Brazil/municipality",
    "place:municipality of Brazil", "audio", "audio-pron", "IPA", "ipa",
    "l", "link", "l-self", "m", "m+", "zh-m", "zh-l", "ja-l", "ja-def",
    "sumti", "ko-l", "vi-l", "ISBN", "syn", "ISSN", "gbooks", "OCLC",
    "hyph", "hyphenation", "ja-r", "l/ja", "l-ja", "ja-r/args", "th-l",
    "ja-r/multi", "lj", "c.", "ca.", "a.", "CURRENTDAY", "CURRENTMONTHNAME",
    "CURRENTYEAR", "...", "…", "mdash", "SIC", "LCC", "homophones",
    "wsource", "nobr", "NNBS", "@", "CE", "BC", "pinyin reading of", "enPR",
    "J2G", "C.E.", "BCE", "A.D.", "B.C.E.", "B.C.", "AD", "C.", "S",
    "nb...", "..", "sic", "mul-kangxi radical-def", "speciesabbrev", "\x27",
    "smc", "mul-shuowen radical-def", "mul-kanadef", "mul-domino def",
    "mul-cjk stroke-def", "ryu-def", "ja-kanjitab", "ja-kana-def", "ja-see",
    "Han char", "zh-only", "sqbrace", "Brai-def", "abbreviated", "ruby",
    "hanja form of", "transterm", "phrasal verb", "compound", "quote",
    "quote-booken", "quote-jounalen", "quotebook", "quote-hansard",
    "quote-video game", "quote-us-patent", "quote-wikipedia", "quote web",
    "quote-web", "quote-webpage", "quote-article", "cite-av", "glossary",
    "The Last Man", "tpi-cite-bible", "small", "bottom5", "source", "glink",
    "projectlink", "maintenance line", "JSTOR", "gloss", "gl", "clear",
    "abbr", "nc", "upright", "tea room sense", "1", "0",
    "wCharles Molloy Westmacott", "source Louis-Ferdinand Céline",
    "presidential nomics", "video frames", "w:William Logan (poet)", "w:",
    "blockquote", "comment", "hot sense"]

/-- The regex families of the dispatch: `-letter$` (line 371, with
`Latn-def`), and `IPA|^(RQ:|Template:RQ:|R:)|-romanization$|-romanji$|`
`romanization of$` (lines 1341–1343). -/
def senseFamilyMatch (name : String) : Bool :=
  strEnds name "-letter" || strContains name "IPA" ||
  strStarts name "RQ:" || strStarts name "Template:RQ:" ||
  strStarts name "R:" || strEnds name "-romanization" ||
  strEnds name "-romanji" || strEnds name "romanization of"

/-- Embeds the regex `^table:([^/]*)(/[a-z0-9]+)?$` (line 1356): the category is the
text between `table:` and an optional `/variant` suffix. -/
def tableMatch (name : String) : Option String :=
  match name.data with
  | 't' :: 'a' :: 'b' :: 'l' :: 'e' :: ':' :: rest =>
    let cat := rest.takeWhile (fun c => c ≠ '/')
    match rest.drop cat.length with
    | [] => some (String.mk cat)
    | '/' :: tail =>
      if !tail.isEmpty &&
         tail.all (fun c => ('a' ≤ c && c ≤ 'z') || ('0' ≤ c && c ≤ '9'))
      then some (String.mk cat) else none
    | _ => none
  | _ => none

/-- One iteration of the template loop of the module-level `parse_sense`
(`newpage.py` lines 205–1360), as it affects `tags` and the
diagnostics.  The branches through `sense`/`Sense` (lines 206–257), the
`hot sense` branch (line 1345) and the final unrecognized-template
branch (lines 1348–1360, with the external `ignored_templates`,
`default_tags` and `default_parenthesize_tags` lists of the
`wikttemplates` module passed as parameters) are embedded exactly; the
remaining branches consume their templates for other fields (`alt_of`,
`inflection_of`, `taxon`, `color`, …) and are represented by the
recognizer `sense_handled_names`/`senseFamilyMatch`, their field
contributions being outside the properties studied here. -/
def parse_sense_template (ignored defaultTags defaultParen : List String)
    (data : Data) (t : Template) : Data × List Diag :=
  let name := t.name
  if ["lb", "label", "context", "term-context", "term-label", "lbl", "tlb",
      "tcx"].contains name then
    (data_extend data "tags" ((clean_quals ((t_vec t).drop 1)).map .str), [])
  else if name == "g2" then
    let v := t_arg t 1
    if v == "m" then (data_append data "tags" (.str "masculine"), [])
    else if v == "f" then (data_append data "tags" (.str "feminine"), [])
    else if v == "n" then (data_append data "tags" (.str "neuter"), [])
    else (data, [.unknownValue name v])
  else if ["qual", "qualifier", "q", "qf", "i", "a", "accent"].contains name then
    (data_extend data "tags" ((clean_quals (t_vec t)).map .str), [])
  else if ["ux", "uxi", "usex", "afex", "zh-x", "prefixusex", "ko-usex",
           "ko-x", "hi-x", "ja-usex-inline", "ja-x", "quotei"].contains name then
    (data_append data "examples" (.dict (t_dict t)), [])
  else if ["non-gloss definition", "n-g", "ngd", "non-gloss",
           "non gloss definition"].contains name then
    (data_append data "nonglosses" (.str (t_arg t 1)), [])
  else if name == "senseid" then
    (data_append data "wikidata" (.str (t_arg t 2)), [])
  else if name == "sense" || name == "Sense" then
    (data_append data "tags" (.str (t_arg t 1)), [])
  else if name == "hot sense" then
    (data_append data "tags" (.str "hot_sense"), [])
  else if sense_handled_names.contains name || senseFamilyMatch name then
    (data, [])
  else if ignored.contains name || defaultTags.contains name
       || defaultParen.contains name then
    (data, [])
  else
    match tableMatch name with
    | some category =>
        (data_append data "topics" (.dict [("word", .str category)]), [])
    | none => (data, [.unrecognizedTemplate name "inside gloss"])

end ParseSense

/-! ## Theorems -/

/-- Claim C3. When a child scope is merged into a parent with
`merge_base`, each parent binding `(k, v)` is processed as follows: a
key absent from the child is copied from the parent; a list-valued key
is extended by concatenating the parent's elements; a scalar key
already present in the child with a different value than the parent's
is left unchanged (first value wins) while a warning diagnostic is
emitted; and in every case the loop continues with the remaining parent
bindings, so a conflict never aborts the merge. -/
theorem merge_base_per_key_semantics :
    (∀ (child : Data) (k : String) (v : Val),
        dataHas child k = false →
        merge_base_step child k v = (dataSet child k v, [])) ∧
    (∀ (child : Data) (k : String) (v : Val) (l : List Val),
        dataGet child k = some (.list l) →
        merge_base_step child k v =
          (dataSet child k (.list (l ++ pyElems v)), [])) ∧
    (∀ (child : Data) (k : String) (v w : Val),
        dataGet child k = some w → (∀ l, w ≠ .list l) → Val.beq w v = false →
        merge_base_step child k v =
          (child, [.warning ("conflicting values for " ++ k)])) ∧
    (∀ (child : Data) (k : String) (v : Val) (rest : Data),
        merge_base child ((k, v) :: rest) =
          ((merge_base (merge_base_step child k v).1 rest).1,
           (merge_base_step child k v).2 ++
             (merge_base (merge_base_step child k v).1 rest).2)) := by
  refine ⟨?_, ?_, ?_, ?_⟩
  · intro child k v h
    unfold merge_base_step
    unfold dataHas at h
    cases hg : dataGet child k with
    | none => rfl
    | some w => rw [hg] at h; simp at h
  · intro child k v l h
    unfold merge_base_step
    rw [h]
  · intro child k v w h hw hneq
    unfold merge_base_step
    rw [h]
    cases w with
    | list l => exact absurd rfl (hw l)
    | str s => simp [hneq]
    | bool b => simp [hneq]
    | pyNone => simp [hneq]
    | dict d => simp [hneq]
  · intro child k v rest
    rfl

/-- Witness for `merge_base_per_key_semantics`: each per-key case at a
concrete input. -/
theorem merge_base_per_key_semantics_witness :
    (merge_base_step [] "pos" (.str "noun") = (dataSet [] "pos" (.str "noun"), [])) ∧
    (merge_base_step [("tags", Val.list [.str "a"])] "tags" (.list [.str "b"]) =
      (dataSet [("tags", Val.list [.str "a"])] "tags"
        (.list ([Val.str "a"] ++ pyElems (.list [.str "b"]))), [])) ∧
    (merge_base_step [("pos", Val.str "noun")] "pos" (.str "verb") =
      ([("pos", Val.str "noun")], [.warning ("conflicting values for " ++ "pos")])) ∧
    (merge_base [("pos", Val.str "noun")] [("pos", Val.str "verb"), ("x", Val.str "y")] =
      ((merge_base (merge_base_step [("pos", Val.str "noun")] "pos" (.str "verb")).1
          [("x", Val.str "y")]).1,
       (merge_base_step [("pos", Val.str "noun")] "pos" (.str "verb")).2 ++
         (merge_base (merge_base_step [("pos", Val.str "noun")] "pos" (.str "verb")).1
          [("x", Val.str "y")]).2)) :=
  ⟨merge_base_per_key_semantics.1 [] "pos" (.str "noun") rfl,
   merge_base_per_key_semantics.2.1 [("tags", Val.list [.str "a"])] "tags"
     (.list [.str "b"]) [Val.str "a"] rfl,
   merge_base_per_key_semantics.2.2.1 [("pos", Val.str "noun")] "pos"
     (.str "verb") (.str "noun") rfl (fun l h => nomatch h) rfl,
   merge_base_per_key_semantics.2.2.2 [("pos", Val.str "noun")] "pos"
     (.str "verb") [("x", Val.str "y")]⟩

namespace ColorPanel

/-- Helper: the color-panel normalization either leaves its input
unchanged or produces a string starting with `#`. -/
theorem color_panel_value_cases (v : String) :
    color_panel_value v = v ∨ (color_panel_value v).data.headD ' ' = '#' := by
  unfold color_panel_value
  split
  · right
    show (String.append "#" v).data.headD ' ' = '#'
    rfl
  · split
    · split
      · right; rfl
      · left; rfl
    · left; rfl

/-- Helper: a value starting with `#` is left unchanged by the
color-panel normalization (`#` is not a hex digit). -/
theorem color_panel_value_hash (v : String) (h : v.data.headD ' ' = '#') :
    color_panel_value v = v := by
  rcases v with ⟨l⟩
  cases l with
  | nil => simp at h
  | cons c rest =>
    simp at h
    subst h
    unfold color_panel_value
    have hhex : isHexDigit '#' = false := by decide
    simp only [String.data]
    rw [show (('#' :: rest).all isHexDigit) = false by simp [List.all_cons, hhex]]
    simp only [Bool.and_false, if_false]
    match rest with
    | [] => rfl
    | [y] => rfl
    | [y, z] => simp [hhex]
    | y :: z :: w :: rest' => rfl

end ColorPanel

/-- Claim C8 counterexample. The color-panel normalization does not
normalize letter case before storing: a mixed-case six-digit value is
stored with its case preserved, and the upper- and lower-case spellings
of the same three-digit color normalize to different stored values. -/
theorem color_panel_case_counterexample :
    ColorPanel.color_panel_value "AbCdEf" = "#AbCdEf" ∧
    ColorPanel.color_panel_value "ABC" = "#AABBCC" ∧
    ColorPanel.color_panel_value "abc" = "#aabbcc" ∧
    ¬ ColorPanel.color_panel_value "ABC" = ColorPanel.color_panel_value "abc" := by
  refine ⟨by decide, by decide, by decide, by decide⟩

/-- Claim C8, amended. The color-panel value normalization collapses a
three-hex-digit value and its doubled six-digit expansion to the same
stored `#`-prefixed value, and it is idempotent; letter case, however,
is preserved rather than normalized. -/
theorem color_panel_normalization_amended (a b c : Char)
    (ha : ColorPanel.isHexDigit a = true) (hb : ColorPanel.isHexDigit b = true)
    (hc : ColorPanel.isHexDigit c = true) :
    ColorPanel.color_panel_value (String.mk [a, b, c]) =
      ColorPanel.color_panel_value (String.mk [a, a, b, b, c, c]) ∧
    (∀ v : String,
      ColorPanel.color_panel_value (ColorPanel.color_panel_value v) =
        ColorPanel.color_panel_value v) := by
  constructor
  · unfold ColorPanel.color_panel_value
    simp [ha, hb, hc]
    rfl
  · intro v
    rcases ColorPanel.color_panel_value_cases v with h | h
    · simp only [h]
    · exact ColorPanel.color_panel_value_hash _ h

/-- Witness for `color_panel_normalization_amended` at the digits
`1`, `a`, `B`. -/
theorem color_panel_normalization_amended_witness :
    ColorPanel.color_panel_value (String.mk ['1', 'a', 'B']) =
      ColorPanel.color_panel_value (String.mk ['1', '1', 'a', 'a', 'B', 'B']) ∧
    (∀ v : String,
      ColorPanel.color_panel_value (ColorPanel.color_panel_value v) =
        ColorPanel.color_panel_value v) :=
  color_panel_normalization_amended '1' 'a' 'B' (by decide) (by decide) (by decide)

/-- Claim C7. Within one invocation of the linkage extractor, an
`add_linkage` call whose edge identity `(kind, word, sense, sorted
qualifiers)` has already been seen changes nothing; a call with an
unseen identity appends exactly one edge and records the identity; and
two calls producing the same identity leave exactly the state of a
single call, regardless of which templates produced them. -/
theorem linkage_dedup :
    (∀ (st : Linkage.LinkState) (kind : String) (sense : Option String) (v w : String),
        Linkage.cleanLinkWord v = some w →
        st.added.contains (kind, w, sense, Linkage.sortStrs st.qualifiers) = true →
        Linkage.add_linkage st kind sense v = st) ∧
    (∀ (st : Linkage.LinkState) (kind : String) (sense : Option String) (v w : String),
        Linkage.cleanLinkWord v = some w →
        st.added.contains (kind, w, sense, Linkage.sortStrs st.qualifiers) = false →
        Linkage.add_linkage st kind sense v =
          { added := st.added ++ [(kind, w, sense, Linkage.sortStrs st.qualifiers)],
            data := data_append st.data kind
              (.dict (Linkage.edgeDict w sense st.qualifiers)),
            qualifiers := [] }) ∧
    (∀ (st : Linkage.LinkState) (kind : String) (sense : Option String) (v w : String),
        Linkage.cleanLinkWord v = some w →
        st.qualifiers = [] →
        st.added.contains (kind, w, sense, []) = false →
        Linkage.runLinkageCalls st [(kind, sense, v), (kind, sense, v)] =
          Linkage.add_linkage st kind sense v) := by
  have hadd : ∀ (st : Linkage.LinkState) kind sense v w,
      Linkage.cleanLinkWord v = some w →
      st.added.contains (kind, w, sense, Linkage.sortStrs st.qualifiers) = false →
      Linkage.add_linkage st kind sense v =
        { added := st.added ++ [(kind, w, sense, Linkage.sortStrs st.qualifiers)],
          data := data_append st.data kind
            (.dict (Linkage.edgeDict w sense st.qualifiers)),
          qualifiers := [] } := by
    intro st kind sense v w hclean hkey
    simp only [Linkage.add_linkage, hclean]
    rw [hkey]
    simp
  refine ⟨?_, hadd, ?_⟩
  · intro st kind sense v w hclean hkey
    simp only [Linkage.add_linkage, hclean]
    rw [hkey]
    simp
  · intro st kind sense v w hclean hq hkey
    have h1 := hadd st kind sense v w hclean (by rw [hq]; exact hkey)
    simp only [Linkage.runLinkageCalls]
    rw [h1]
    simp only [Linkage.add_linkage, hclean]
    rw [hq]
    simp

/-- Witness for `linkage_dedup`: concrete duplicate and fresh calls. -/
theorem linkage_dedup_witness :
    (Linkage.add_linkage
      { added := [("synonyms", "foo", none, [])], data := [], qualifiers := [] }
      "synonyms" none "foo" =
      { added := [("synonyms", "foo", none, [])], data := [], qualifiers := [] }) ∧
    (Linkage.add_linkage { } "synonyms" none "foo" =
      { added := [("synonyms", "foo", none, Linkage.sortStrs [])],
        data := data_append [] "synonyms" (.dict (Linkage.edgeDict "foo" none [])),
        qualifiers := [] }) ∧
    (Linkage.runLinkageCalls { } [("synonyms", none, "foo"), ("synonyms", none, "foo")] =
      Linkage.add_linkage { } "synonyms" none "foo") :=
  ⟨linkage_dedup.1 _ "synonyms" none "foo" "foo" (by decide) (by decide),
   linkage_dedup.2.1 { } "synonyms" none "foo" "foo" (by decide) (by decide),
   linkage_dedup.2.2 { } "synonyms" none "foo" "foo" (by decide) rfl (by decide)⟩

open ParseLanguage in
/-- Claim C1. For every page whose one language section contains one
Etymology heading holding an etymology-level field (here a translations
entry collected at etymology level) and two part-of-speech sections,
each with a two-item sense list of plain glosses, `parse_language`
produces exactly 4 records; each record carries the etymology-level
field, its own sense's gloss only, and the base fields
`word`/`lang`/`lang_code`; every sense is merged through exactly one
part-of-speech buffer, one etymology buffer and the page base, and none
is emitted directly. -/
theorem parse_language_merge_associativity
    (w language code g1 g2 g3 g4 : String) (tr : Val)
    (h1 : matchParenPrefix g1 = none) (h2 : matchParenPrefix g2 = none)
    (h3 : matchParenPrefix g3 = none) (h4 : matchParenPrefix g4 = none)
    (s1 : strStarts g1 ", " = false) (s2 : strStarts g2 ", " = false)
    (s3 : strStarts g3 ", " = false) (s4 : strStarts g4 ", " = false) :
    (parse_language { word := w } 12
      [.sect "Etymology 1" [
        .sect "Translations" [.entries [("translations", tr)]],
        .sect "Noun" [.senseList [{ gloss := g1 }, { gloss := g2 }]],
        .sect "Verb" [.senseList [{ gloss := g3 }, { gloss := g4 }]]]]
      language code).1 =
    [[("glosses", .list [.str g1]), ("pos", .str "noun"), ("translations", .list [tr]),
      ("word", .str w), ("lang", .str language), ("lang_code", .str code)],
     [("glosses", .list [.str g2]), ("pos", .str "noun"), ("translations", .list [tr]),
      ("word", .str w), ("lang", .str language), ("lang_code", .str code)],
     [("glosses", .list [.str g3]), ("pos", .str "verb"), ("translations", .list [tr]),
      ("word", .str w), ("lang", .str language), ("lang_code", .str code)],
     [("glosses", .list [.str g4]), ("pos", .str "verb"), ("translations", .list [tr]),
      ("word", .str w), ("lang", .str language), ("lang_code", .str code)]] := by
  have ly1 : strLower "Etymology 1" = "etymology 1" := by rfl
  have ly2 : strLower "Translations" = "translations" := by rfl
  have ly3 : strLower "Noun" = "noun" := by rfl
  have ly4 : strLower "Verb" = "verb" := by rfl
  have st1 : strStarts "Etymology 1" "Etymology" = true := by rfl
  have st2 : strStarts "Translations" "Etymology" = false := by rfl
  have st3 : strStarts "Noun" "Etymology" = false := by rfl
  have st4 : strStarts "Verb" "Etymology" = false := by rfl
  simp [parse_language, runNodes, push_etym, push_pos, push_sense, parse_part_of_speech,
        parse_sense, findSenseList, parse_translations, entriesOf, parse_pronunciation,
        withTarget, targetIsPos, part_of_speech_map, strDropN,
        data_append, data_extend, dataGet, dataSet, dataHas, merge_base, merge_base_step,
        Val.beq, List.lookup, List.foldl, List.find?, List.isEmpty, List.getLast?,
        List.dropLast, Option.isSome,
        ly1, ly2, ly3, ly4, st1, st2, st3, st4,
        h1, h2, h3, h4, s1, s2, s3, s4]

open ParseLanguage in
/-- Witness for `parse_language_merge_associativity` on a concrete
page. -/
theorem parse_language_merge_associativity_witness :
    (parse_language { word := "w" } 12
      [.sect "Etymology 1" [
        .sect "Translations" [.entries [("translations", Val.str "T")]],
        .sect "Noun" [.senseList [{ gloss := "g1" }, { gloss := "g2" }]],
        .sect "Verb" [.senseList [{ gloss := "g3" }, { gloss := "g4" }]]]]
      "English" "en").1 =
    [[("glosses", .list [.str "g1"]), ("pos", .str "noun"), ("translations", .list [.str "T"]),
      ("word", .str "w"), ("lang", .str "English"), ("lang_code", .str "en")],
     [("glosses", .list [.str "g2"]), ("pos", .str "noun"), ("translations", .list [.str "T"]),
      ("word", .str "w"), ("lang", .str "English"), ("lang_code", .str "en")],
     [("glosses", .list [.str "g3"]), ("pos", .str "verb"), ("translations", .list [.str "T"]),
      ("word", .str "w"), ("lang", .str "English"), ("lang_code", .str "en")],
     [("glosses", .list [.str "g4"]), ("pos", .str "verb"), ("translations", .list [.str "T"]),
      ("word", .str "w"), ("lang", .str "English"), ("lang_code", .str "en")]] :=
  parse_language_merge_associativity "w" "English" "en" "g1" "g2" "g3" "g4"
    (.str "T") rfl rfl rfl rfl rfl rfl rfl rfl

open ParseLanguage in
/-- Claim C10. A part-of-speech section with no sense list produces zero
records: its buffer (the `pos` tag and the conjugation data collected
from a nested Conjugation section) is discarded at the next flush,
because `push_pos` merges the buffer only into collected senses and
there are none; only the "no sense list found" warning is emitted.  A
later part-of-speech section with a sense list still produces its own
record, carrying nothing from the discarded buffer. -/
theorem pos_no_sense_list
    (w language code g : String) (conj : Data)
    (h1 : matchParenPrefix g = none) (s1 : strStarts g ", " = false)
    (e1 : (g == "") = false) :
    parse_language { word := w } 12
      [.sect "Noun" [.sect "Conjugation" [.conjTemplates [conj]]],
       .sect "Verb" [.senseList [{ gloss := g }]]]
      language code =
    ([[("glosses", .list [.str g]), ("pos", .str "verb"),
       ("word", .str w), ("lang", .str language), ("lang_code", .str code)]],
     [.warning ("noun" ++ ": no sense list found")]) := by
  have ly3 : strLower "Noun" = "noun" := by rfl
  have ly4 : strLower "Verb" = "verb" := by rfl
  have ly5 : strLower "Conjugation" = "conjugation" := by rfl
  have st3 : strStarts "Noun" "Etymology" = false := by rfl
  have st4 : strStarts "Verb" "Etymology" = false := by rfl
  have st5 : strStarts "Conjugation" "Etymology" = false := by rfl
  simp [parse_language, runNodes, push_etym, push_pos, push_sense, parse_part_of_speech,
        parse_sense, findSenseList, parse_declension_conjugation, conjsOf,
        withTarget, targetIsPos, part_of_speech_map, strDropN,
        data_append, data_extend, dataGet, dataSet, dataHas, merge_base, merge_base_step,
        Val.beq, List.lookup, List.foldl, List.find?, List.isEmpty, List.getLast?,
        List.dropLast, Option.isSome,
        ly3, ly4, ly5, st3, st4, st5, h1, s1, e1]

open ParseLanguage in
/-- Witness for `pos_no_sense_list` on a concrete page. -/
theorem pos_no_sense_list_witness :
    parse_language { word := "w" } 12
      [.sect "Noun" [.sect "Conjugation" [.conjTemplates [[("template_name", Val.str "fi-decl")]]]],
       .sect "Verb" [.senseList [{ gloss := "g" }]]]
      "Finnish" "fi" =
    ([[("glosses", .list [.str "g"]), ("pos", .str "verb"),
       ("word", .str "w"), ("lang", .str "Finnish"), ("lang_code", .str "fi")]],
     [.warning ("noun" ++ ": no sense list found")]) :=
  pos_no_sense_list "w" "Finnish" "fi" "g" [("template_name", Val.str "fi-decl")]
    rfl rfl rfl

open ParseLanguage in
/-- Claim C5 counterexample. The claim says a Pronunciation section
inside an open Etymology scope writes its results into that Etymology
scope.  On this page the first Etymology section is open but its buffer
is still empty when its Pronunciation subsection is parsed, so the code
(`data = etym_data if etym_data else base`, line 2313) writes the sound
into the page base; the sound then surfaces in the record of the
*second* etymology — under the claim it would have been flushed and
discarded with Etymology 1, which produces no records. -/
theorem pronunciation_target_counterexample :
    parse_language { word := "w" } 12
      [.sect "Etymology 1" [.sect "Pronunciation" [.sounds [[("ipa", .str "/a/")]]]],
       .sect "Etymology 2" [.sect "Noun" [.senseList [{ gloss := "g" }]]]]
      "English" "en" =
    ([[("glosses", .list [.str "g"]), ("pos", .str "noun"),
       ("word", .str "w"), ("lang", .str "English"), ("lang_code", .str "en"),
       ("sounds", .list [.dict [("ipa", .str "/a/")]])]],
     []) := by rfl

open ParseLanguage in
/-- Claim C5, amended. The pronunciation extractor writes its results
into the etymology buffer when that buffer is non-empty, and into the
page base otherwise (also when an Etymology heading is open but its
buffer is still empty); it never writes the part-of-speech or sense
buffers. -/
theorem pronunciation_target_amended (st : PLState) (children : List PNode) :
    ((parse_pronunciation st children).pos_data = st.pos_data ∧
     (parse_pronunciation st children).sense_data = st.sense_data) ∧
    (st.etym_data.isEmpty = false →
      parse_pronunciation st children =
        { st with etym_data := addSounds children st.etym_data }) ∧
    (st.etym_data.isEmpty = true →
      parse_pronunciation st children =
        { st with base := addSounds children st.base }) := by
  unfold parse_pronunciation
  cases hE : st.etym_data.isEmpty <;> simp [hE]

open ParseLanguage in
/-- Witness for `pronunciation_target_amended` at a state with a
non-empty etymology buffer and at one with an empty buffer. -/
theorem pronunciation_target_amended_witness :
    (parse_pronunciation { base := [], etym_data := [("x", Val.str "y")] }
        [.sounds [[("ipa", Val.str "/a/")]]] =
      { base := [],
        etym_data := addSounds [.sounds [[("ipa", Val.str "/a/")]]] [("x", Val.str "y")] }) ∧
    (parse_pronunciation { base := [("word", Val.str "w")] }
        [.sounds [[("ipa", Val.str "/a/")]]] =
      { base := addSounds [.sounds [[("ipa", Val.str "/a/")]]] [("word", Val.str "w")] }) :=
  ⟨(pronunciation_target_amended
      { base := [], etym_data := [("x", Val.str "y")] }
      [.sounds [[("ipa", Val.str "/a/")]]]).2.1 rfl,
   (pronunciation_target_amended
      { base := [("word", Val.str "w")] }
      [.sounds [[("ipa", Val.str "/a/")]]]).2.2 rfl⟩

/-- Claim C9. After `parse_page` post-processing of a language group with
more than one record, the topics of the last record are added to every
other record of the group, each propagated entry marked
`inaccurate = true`; the records' own previously collected topics are
kept in front of the propagated ones. -/
theorem topic_propagation (L w1 w3a w3b : String) :
    ParsePage.parse_page_post
      [[[("lang", .str L), ("pos", .str "noun"),
         ("topics", .list [.dict [("word", .str w1)]])],
        [("lang", .str L), ("pos", .str "verb")],
        [("lang", .str L), ("pos", .str "adv"),
         ("topics", .list [.dict [("word", .str w3a)], .dict [("word", .str w3b)]])]]] =
    some [[("lang", .str L), ("pos", .str "noun"),
           ("topics", .list [.dict [("word", .str w1)],
             .dict [("word", .str w3a), ("inaccurate", .bool true)],
             .dict [("word", .str w3b), ("inaccurate", .bool true)]])],
          [("lang", .str L), ("pos", .str "verb"),
           ("topics", .list [.dict [("word", .str w3a), ("inaccurate", .bool true)],
             .dict [("word", .str w3b), ("inaccurate", .bool true)]])],
          [("lang", .str L), ("pos", .str "adv"),
           ("topics", .list [.dict [("word", .str w3a), ("inaccurate", .bool true)],
             .dict [("word", .str w3b), ("inaccurate", .bool true)]])]] := by
  simp [ParsePage.parse_page_post, ParsePage.buildByLang, ParsePage.addByLang,
        ParsePage.conjPass, ParsePage.findConjDonor, ParsePage.conjCompatible,
        ParsePage.topicsPass, ParsePage.markTopics, ParsePage.storeGet,
        ParsePage.storeSet, ParsePage.optValBeq, Val.beq, pyTruthy, pyElems,
        dataGet, dataSet, dataHas, List.enum, List.enumFrom, List.foldl,
        List.foldlM, List.find?, List.isEmpty, List.getLast?, List.getLastD,
        List.dropLast, List.range, List.range.loop, Option.isSome, List.getD]

/-- Claim C4, code bug. On a page with two languages, the Finnish group
holds a noun record without conjugation and an adjective record with
conjugation data — by the claim (and the code's own comment) the noun
must adopt the adjective's conjugation.  The code instead searches
donors in the stale variable `datas`, which holds only the *last*
language's records (English here), so the Finnish noun adopts nothing:
the output records are completely unchanged. -/
theorem conj_sharing_stale_datas :
    ParsePage.parse_page_post
      [[[("lang", Val.str "Finnish"), ("pos", Val.str "noun")],
        [("lang", Val.str "Finnish"), ("pos", Val.str "adj"),
         ("conjugation", Val.list [.dict [("template_name", .str "fi-decl")]])]],
       [[("lang", Val.str "English"), ("pos", Val.str "noun")]]] =
    some [[("lang", Val.str "Finnish"), ("pos", Val.str "noun")],
          [("lang", Val.str "Finnish"), ("pos", Val.str "adj"),
           ("conjugation", Val.list [.dict [("template_name", .str "fi-decl")]])],
          [("lang", Val.str "English"), ("pos", Val.str "noun")]] := by rfl

/-- Claim C6 counterexample. The claim requires every `t`/`t+` entry
between `{{trans-top|S}}` and `{{trans-bottom}}` to record `sense = S`.
With an explicitly empty sense argument (`S = ""`) the marker is set,
the entry lies between the markers, and yet — because the code guards
the assignment with the marker's truthiness (`if translation_sense:`,
line 2048) — the recorded entry carries no `sense` field. -/
theorem trans_top_empty_sense_counterexample :
    ParseAny.parse_any { word := "w" } [] "translations"
      [{ name := "trans-top", posArgs := [""] },
       { name := "t", posArgs := ["de", "Wort"] },
       { name := "trans-bottom" }] [] =
    some ([("translations",
            .list [.dict [("lang", .str "de"), ("word", .str "Wort")]])], []) := by
  rfl

/-- Claim C6, amended. In a Translations section processed in document
order, `{{trans-top|S}}` sets the active sense marker to `S` and
`{{trans-bottom}}` clears it; a translation entry (`t`/`t+` with a
non-empty word) records `sense = S` exactly when it occurs under an
active *non-empty* marker, and an entry outside any top/bottom pair (or
under an empty marker) carries no sense field. -/
theorem translation_scoping_amended
    (cfg : Config) (sectitle : String) (st : ParseAny.AnyState)
    (S lang w tname : String)
    (hS : (S == "") = false) (hw : (w == "") = false)
    (ht : tname = "t" ∨ tname = "t+") :
    (ParseAny.parse_any_step cfg sectitle st
        { name := "trans-top", posArgs := [S] } =
      some { st with sense := some S }) ∧
    (ParseAny.parse_any_step cfg sectitle st { name := "trans-bottom" } =
      some { st with sense := none }) ∧
    (cfg.capture_translations = true → st.sense = some S →
      ParseAny.parse_any_step cfg sectitle st
          { name := tname, posArgs := [lang, w] } =
        some { st with data := data_append st.data "translations" (.dict
          [("lang", .str lang), ("word", .str w), ("sense", .str S)]) }) ∧
    (cfg.capture_translations = true → st.sense = none →
      ParseAny.parse_any_step cfg sectitle st
          { name := tname, posArgs := [lang, w] } =
        some { st with data := data_append st.data "translations" (.dict
          [("lang", .str lang), ("word", .str w)]) }) := by
  refine ⟨?_, ?_, ?_, ?_⟩
  · rfl
  · rfl
  · intro hcap hsense
    rcases ht with rfl | rfl <;>
      simp [ParseAny.parse_any_step, hcap, hsense, t_vec, t_arg, t_argN,
            dropTrailingEmpty, List.range, List.range.loop, hS, hw]
  · intro hcap hsense
    rcases ht with rfl | rfl <;>
      simp [ParseAny.parse_any_step, hcap, hsense, t_vec, t_arg, t_argN,
            dropTrailingEmpty, List.range, List.range.loop, hw]

/-- Witness for `translation_scoping_amended` with the sense "sense A"
and a German entry. -/
theorem translation_scoping_amended_witness :
    (ParseAny.parse_any_step { word := "pg" } "x" { data := [] }
        { name := "trans-top", posArgs := ["sense A"] } =
      some { data := [], sense := some "sense A" }) ∧
    (ParseAny.parse_any_step { word := "pg" } "x"
        { data := [], sense := some "sense A" }
        { name := "t", posArgs := ["de", "Wort"] } =
      some { data := [("translations", Val.list [.dict [("lang", .str "de"),
               ("word", .str "Wort"), ("sense", .str "sense A")]])],
             sense := some "sense A" }) ∧
    (ParseAny.parse_any_step { word := "pg" } "x" { data := [] }
        { name := "t", posArgs := ["de", "Wort"] } =
      some { data := [("translations", Val.list [.dict [("lang", .str "de"),
               ("word", .str "Wort")]])],
             sense := none }) :=
  ⟨(translation_scoping_amended { word := "pg" } "x" { data := [] }
      "sense A" "de" "Wort" "t" rfl rfl (Or.inl rfl)).1,
   (translation_scoping_amended { word := "pg" } "x"
      { data := [], sense := some "sense A" }
      "sense A" "de" "Wort" "t" rfl rfl (Or.inl rfl)).2.2.1 rfl rfl,
   (translation_scoping_amended { word := "pg" } "x" { data := [] }
      "sense A" "de" "Wort" "t" rfl rfl (Or.inl rfl)).2.2.2 rfl rfl⟩

/-- Helper: a name outside the handled-name list fails each membership
guard drawn from a subset of it. -/
theorem contains_false_of_sub (small : List String) (n : String)
    (hsub : ∀ x ∈ small, x ∈ ParseSense.sense_handled_names)
    (h : ParseSense.sense_handled_names.contains n = false) :
    small.contains n = false := by
  by_contra hc
  rw [Bool.not_eq_false] at hc
  have hm : n ∈ small := by simpa using hc
  have hbig : n ∈ ParseSense.sense_handled_names := hsub _ hm
  simp [hbig] at h

/-- Helper: a name outside the handled-name list differs from each
literal taken from it. -/
theorem beq_lit_false (n lit : String)
    (hlit : lit ∈ ParseSense.sense_handled_names)
    (h : ParseSense.sense_handled_names.contains n = false) :
    (n == lit) = false := by
  by_contra hc
  rw [Bool.not_eq_false] at hc
  have : n = lit := by simpa using hc
  subst this
  simp [hlit] at h

/-- Claim C2 counterexample. A `{{sense|…}}` invocation appends its raw
first argument to `tags` verbatim (`newpage.py` line 257), so unvetted
argument text does appear in a record's tags — the canonical-vocabulary
invariant fails. -/
theorem sense_template_raw_tag_counterexample :
    ParseSense.parse_sense_template [] [] [] []
      { name := "sense", posArgs := ["not-a-canonical-tag boz"] } =
    ([("tags", .list [.str "not-a-canonical-tag boz"])], []) := by
  rfl

set_option maxRecDepth 8000 in
/-- Claim C2, amended. A template invocation whose name matches no
specific rule, no family pattern, no ignore list and no `table:`
pattern adds nothing to any field and raises exactly one "unrecognized
template" diagnostic; however, the `tags` list is not limited to the
Tag Normalizer's vocabulary: the `sense` template's first argument is
appended to `tags` verbatim. -/
theorem sense_template_amended :
    (∀ (ignored defaultTags defaultParen : List String) (data : Data) (t : Template),
       ParseSense.sense_handled_names.contains t.name = false →
       ParseSense.senseFamilyMatch t.name = false →
       ignored.contains t.name = false →
       defaultTags.contains t.name = false →
       defaultParen.contains t.name = false →
       ParseSense.tableMatch t.name = none →
       ParseSense.parse_sense_template ignored defaultTags defaultParen data t =
         (data, [.unrecognizedTemplate t.name "inside gloss"])) ∧
    (∀ (ignored defaultTags defaultParen : List String) (data : Data) (s : String),
       ParseSense.parse_sense_template ignored defaultTags defaultParen data
         { name := "sense", posArgs := [s] } =
       (data_append data "tags" (.str s), [])) := by
  constructor
  · intro ignored defaultTags defaultParen data t hbig hfam hig hdt hdp htab
    have g1 := contains_false_of_sub
      ["lb", "label", "context", "term-context", "term-label", "lbl", "tlb", "tcx"]
      t.name (by decide) hbig
    have g2 := beq_lit_false t.name "g2" (by decide) hbig
    have g3 := contains_false_of_sub
      ["qual", "qualifier", "q", "qf", "i", "a", "accent"] t.name (by decide) hbig
    have g4 := contains_false_of_sub
      ["ux", "uxi", "usex", "afex", "zh-x", "prefixusex", "ko-usex",
       "ko-x", "hi-x", "ja-usex-inline", "ja-x", "quotei"] t.name (by decide) hbig
    have g5 := contains_false_of_sub
      ["non-gloss definition", "n-g", "ngd", "non-gloss",
       "non gloss definition"] t.name (by decide) hbig
    have g6 := beq_lit_false t.name "senseid" (by decide) hbig
    have g7 := beq_lit_false t.name "sense" (by decide) hbig
    have g7b := beq_lit_false t.name "Sense" (by decide) hbig
    have g8 := beq_lit_false t.name "hot sense" (by decide) hbig
    have hbig' : ¬(t.name ∈ ParseSense.sense_handled_names) := by simpa using hbig
    have hig' : ¬(t.name ∈ ignored) := by simpa using hig
    have hdt' : ¬(t.name ∈ defaultTags) := by simpa using hdt
    have hdp' : ¬(t.name ∈ defaultParen) := by simpa using hdp
    simp at g1 g3 g4 g5
    simp [ParseSense.parse_sense_template, g1, g2, g3, g4, g5, g6, g7, g7b, g8,
          hbig', hfam, hig', hdt', hdp', htab]
  · intro ignored defaultTags defaultParen data s
    rfl

set_option maxRecDepth 8000 in
/-- Witness for `sense_template_amended`: an unknown template leaves
the data untouched with one diagnostic; a concrete `sense` template
appends its argument to `tags`. -/
theorem sense_template_amended_witness :
    (ParseSense.parse_sense_template [] [] [] []
       { name := "totally-unknown-template-xq" } =
     ([], [.unrecognizedTemplate "totally-unknown-template-xq" "inside gloss"])) ∧
    (ParseSense.parse_sense_template [] [] [] []
       { name := "sense", posArgs := ["boz"] } =
     (data_append [] "tags" (.str "boz"), [])) :=
  ⟨sense_template_amended.1 [] [] [] []
     { name := "totally-unknown-template-xq" }
     (by decide) (by decide) rfl rfl rfl rfl,
   sense_template_amended.2 [] [] [] [] "boz"⟩

end Wiktextract
